import Mathlib

/-!
Shallow embedding of src/Transform.py (classes Transforms, t_identity, t_linear).

Numbers are modelled exactly: numpy float64 arrays become rectangular lists of
rationals, and np.linalg.inv is modelled by exact Gauss-free adjugate inversion,
with singularity detected by a zero determinant.  Python exceptions become an
explicit error type; a Python function that falls off its end returns None,
modelled as Option.none inside Except.ok.

Modelling restrictions, each noted at the definition it concerns:
- the rot parameter is modelled as an optional scalar.  No claim exercises an
  array-valued rot, and for an array value lines 154-164 of the source are dead
  code because the test there is written "rot is np.ndarray", an identity
  comparison of the value against the class, which is False for every array.
- print calls are side effects without influence on any returned value and are
  dropped.
-/

namespace PdlTransforms

/-- Python exception outcomes reachable in the modelled fragment. -/
inductive PyError where
  | valueError (msg : String)
  | typeError (msg : String)
deriving Repr, DecidableEq

/-- A 2-D numpy array, modelled as a rectangular list of rows of rationals. -/
abbrev Mat := List (List ℚ)

/-- np.shape(m)[1] of a rectangular 2-D array: the length of the first row. -/
def shape1 (m : Mat) : Nat := (m.headD []).length

/-- The scale parameter: a Python scalar, a 1-D ndarray, or a 2-D ndarray
(standing for every array of rank at least 2). -/
inductive ScaleV where
  | scalar (q : ℚ)
  | arr1 (l : List ℚ)
  | arr2 (a : List (List ℚ))
deriving Repr, DecidableEq

/-- The parameters dict of t_linear with its keys matrix, rot, scale, pre,
post, dims (source line 118).  rot is restricted to an optional scalar, see the
file comment. -/
structure Params where
  matrix : Option Mat
  rot : Option ℚ
  scale : Option ScaleV
  pre : Option (List ℚ)
  post : Option (List ℚ)
  dims : Option Nat
deriving Repr, DecidableEq

/-- Lines 148-149: np.zeros([d, d]) followed by np.fill_diagonal(., 1). -/
def identityMat (n : Nat) : Mat :=
  (List.range n).map (fun i => (List.range n).map (fun j => if i = j then (1 : ℚ) else 0))

/-- Determinant by Laplace expansion along the first row, with explicit fuel;
matDet supplies fuel equal to the row count. -/
def matDetFuel : Nat → Mat → ℚ
  | 0, _ => 1
  | _, [] => 1
  | fuel + 1, r :: rest =>
      (List.range r.length).foldl
        (fun acc j =>
          acc + (if j % 2 = 0 then (1 : ℚ) else -1) * r.getD j 0 *
            matDetFuel fuel (rest.map (fun row => row.eraseIdx j))) 0

/-- Determinant of a square matrix (empty matrix has determinant 1). -/
def matDet (m : Mat) : ℚ := matDetFuel m.length m

/-- The minor of a matrix: erase row i and column j. -/
def matMinor (m : Mat) (i j : Nat) : Mat :=
  (m.eraseIdx i).map (fun row => row.eraseIdx j)

/-- Exact model of np.linalg.inv as used on lines 192-196: a non-square
argument or a singular square argument raises LinAlgError, modelled as none;
otherwise the adjugate formula gives the inverse. -/
def matInv (m : Mat) : Option Mat :=
  let n := m.length
  if m.all (fun r => r.length = n) then
    let d := matDet m
    if d = 0 then none
    else
      some ((List.range n).map (fun i =>
        (List.range n).map (fun j =>
          (if (i + j) % 2 = 0 then (1 : ℚ) else -1) * matDet (matMinor m j i) / d)))
  else none

/-- One execution of line 181 or 189 on a diagonal entry: in the source every
non-None scale reaches line 181 (the intended branch split on line 178 is
defeated because the condition is written "type((scale) is not np.ndarray)",
the type of a bool, which is always truthy; the elif on lines 183-189 is
therefore unreachable).  numpy stores the product back into the scalar cell
matrix[j][j]; for an array factor of total size other than one that raises
ValueError, for size one the value is unwrapped. -/
def scaleMulEntry (e : ℚ) (s : ScaleV) : Except PyError ℚ :=
  match s with
  | ScaleV.scalar q => Except.ok (e * q)
  | ScaleV.arr1 l =>
      if l.length = 1 then Except.ok (e * l.headD 0)
      else Except.error (PyError.valueError "setting an array element with a sequence")
  | ScaleV.arr2 a =>
      if (a.map List.length).sum = 1 then Except.ok (e * (a.headD []).headD 0)
      else Except.error (PyError.valueError "setting an array element with a sequence")

/-- Write value v into entry (i, j). -/
def setEntry (m : Mat) (i j : Nat) (v : ℚ) : Mat :=
  m.set i ((m.getD i []).set j v)

/-- Lines 180-181: for j in range(matrix.shape[0]): matrix[j][j] *= scale. -/
def scaleDiagLoop (s : ScaleV) : List Nat → Mat → Except PyError Mat
  | [], m => Except.ok m
  | j :: js, m =>
      match scaleMulEntry ((m.getD j []).getD j 0) s with
      | Except.error e => Except.error e
      | Except.ok v => scaleDiagLoop s js (setEntry m j j v)

/-- The whole scale loop over the diagonal of the working matrix. -/
def scaleDiag (m : Mat) (s : ScaleV) : Except PyError Mat :=
  scaleDiagLoop s (List.range m.length) m

/-- The state of a constructed t_linear object: the parameters dict as left by
the constructor (the same dict object the caller passed in, mutated in place),
the resolved dimensionalities, the cached inverse and flags. -/
structure TLinear where
  params : Params
  input_dim : Nat
  output_dim : Nat
  inv : Option Mat
  non_invertible : Bool
  reverse_flag : Bool
deriving Repr, DecidableEq

/-- Lines 192-196: try np.linalg.inv(matrix); on LinAlgError set inv = None and
non_invertible = 1, otherwise keep the constructor arguments. -/
def finishInit (p : Params) (inDim outDim : Nat) (m : Mat) (rf ni : Bool) : TLinear :=
  match matInv m with
  | some iv =>
      { params := p, input_dim := inDim, output_dim := outDim,
        inv := some iv, non_invertible := ni, reverse_flag := rf }
  | none =>
      { params := p, input_dim := inDim, output_dim := outDim,
        inv := none, non_invertible := true, reverse_flag := rf }

/-- Lines 128-146: dimensionality inference when no matrix is supplied.  A
scalar rot never matches the ndarray test on line 129, so that block is a no-op
in the modelled fragment; then scale, pre, post, dims are tried in order and
the default is 2 (printed warning dropped). -/
def inferDims (p : Params) : Nat :=
  match p.scale with
  | some (ScaleV.arr1 l) => l.length
  | some (ScaleV.arr2 a) => a.length
  | _ =>
      match p.pre with
      | some pr => pr.length
      | none =>
          match p.post with
          | some po => po.length
          | none =>
              match p.dims with
              | some k => k
              | none => 2

/-- Lines 125-149: with a supplied matrix, input_dim = shape[0] (row count) and
output_dim = shape[1] (column count) and the dict is untouched; otherwise the
dimension is inferred and an identity matrix of that size is written into the
dict under the key matrix. -/
def resolveMatrix (p : Params) : Nat × Nat × Params :=
  match p.matrix with
  | some m => (m.length, shape1 m, p)
  | none =>
      let d := inferDims p
      (d, d, { p with matrix := some (identityMat d) })

/-- t_linear.__init__ (lines 113-196).  Lines 151-175 (the rot handling) have
no observable effect: for a scalar rot the 2-D rotation matrix rot_matrix is
computed into a local (with near-zero cosine and sine snapped to exactly zero)
and then discarded, because the composition statements on lines 161-162 and
174-175 are comments; so the working matrix is not modified and the block is
omitted here.  Lines 178-189 scale the diagonal (see scaleMulEntry for the
branch bug), lines 192-196 cache the inverse. -/
def t_linear_init (p : Params) (rf ni : Bool) : Except PyError TLinear :=
  let r := resolveMatrix p
  let inDim := r.1
  let outDim := r.2.1
  let p1 := r.2.2
  let m1 : Mat := p1.matrix.getD []
  match p1.scale with
  | none => Except.ok (finishInit p1 inDim outDim m1 rf ni)
  | some s =>
      match scaleDiag m1 s with
      | Except.error e => Except.error e
      | Except.ok m2 =>
          Except.ok (finishInit { p1 with matrix := some m2 } inDim outDim m2 rf ni)

/-- The ValueError raised by the dimension check on line 203; this is the
DimensionMismatch of the specification error taxonomy. -/
def DimensionMismatch (n : Nat) : PyError :=
  PyError.valueError ("Linear transform: transform is " ++ toString n ++ " data only ")

/-- t_linear.apply (lines 198-212).  In the effective-forward branch the
dimension check can raise; then line 205 computes
x = deepcopy(data[0:d]) + parameters[pre], which raises TypeError when pre is
None (array plus None) and raises a broadcast ValueError when the shapes
(d, columns of data) and (length of pre,) are incompatible; x and the copy out
are then discarded and the function falls off the end, returning None.  The
other two branches only print and return None; note they are swapped: the print
under non_invertible announces running the inverse and vice versa. -/
def t_linear_apply (T : TLinear) (data : List (List ℚ)) (backwards : Bool) :
    Except PyError (Option (List (List ℚ))) :=
  if (!backwards && !T.reverse_flag) || (backwards && T.reverse_flag) then
    if data.length < (T.params.matrix.getD []).length then
      Except.error (DimensionMismatch data.length)
    else
      match T.params.pre with
      | none => Except.error (PyError.typeError "unsupported operand type for + : float and NoneType")
      | some pr =>
          if pr.length = shape1 data ∨ pr.length = 1 ∨ shape1 data = 1 then
            Except.ok none
          else Except.error (PyError.valueError "operands could not be broadcast together")
  else if T.non_invertible then Except.ok none
  else Except.ok none

/-- Transforms.invert (lines 51-52) calls self.apply(data, backward=1), but
t_linear.apply (line 198) names its parameter backwards, so on a t_linear the
call raises TypeError before any transform logic runs. -/
def t_linear_invert (_T : TLinear) (_data : List (List ℚ)) :
    Except PyError (Option (List (List ℚ))) :=
  Except.error (PyError.typeError "apply got an unexpected keyword argument backward")

/-- Modelled from the spec: is_invertible() — "query of the cached flag; does
not attempt computation" (section 4.2).  The method is absent from
src/Transform.py; the cached flag there is non_invertible (line 196). -/
def is_invertible (T : TLinear) : Bool := !T.non_invertible

/-- t_identity.apply (lines 84-85): the body is pass, so the call returns None
for every input and either direction. -/
def t_identity_apply {α : Type} (_data : α) (_backward : Bool) : Option α := none

/-- Transforms.invert (lines 51-52) as inherited by t_identity, whose apply
parameter is named backward, so the keyword call is accepted. -/
def t_identity_invert {α : Type} (data : α) : Option α := t_identity_apply data true

/- ------------------------------------------------------------------ -/
/- Helper lemmas                                                       -/
/- ------------------------------------------------------------------ -/

theorem finishInit_params (p : Params) (i o : Nat) (m : Mat) (rf ni : Bool) :
    (finishInit p i o m rf ni).params = p := by
  unfold finishInit; cases matInv m <;> rfl

theorem finishInit_input_dim (p : Params) (i o : Nat) (m : Mat) (rf ni : Bool) :
    (finishInit p i o m rf ni).input_dim = i := by
  unfold finishInit; cases matInv m <;> rfl

theorem finishInit_output_dim (p : Params) (i o : Nat) (m : Mat) (rf ni : Bool) :
    (finishInit p i o m rf ni).output_dim = o := by
  unfold finishInit; cases matInv m <;> rfl

theorem identityMat_length (n : Nat) : (identityMat n).length = n := by
  simp [identityMat]

theorem setEntry_length (m : Mat) (i j : Nat) (v : ℚ) :
    (setEntry m i j v).length = m.length := by
  simp [setEntry]

theorem scaleDiagLoop_length (s : ScaleV) (js : List Nat) (m m2 : Mat)
    (h : scaleDiagLoop s js m = Except.ok m2) : m2.length = m.length := by
  induction js generalizing m with
  | nil =>
      unfold scaleDiagLoop at h
      cases h
      rfl
  | cons j js ih =>
      unfold scaleDiagLoop at h
      cases hm : scaleMulEntry ((m.getD j []).getD j 0) s with
      | error e => rw [hm] at h; cases h
      | ok v =>
          rw [hm] at h
          have := ih (setEntry m j j v) h
          rwa [setEntry_length] at this

theorem scaleDiag_length (m : Mat) (s : ScaleV) (m2 : Mat)
    (h : scaleDiag m s = Except.ok m2) : m2.length = m.length :=
  scaleDiagLoop_length s (List.range m.length) m m2 h

theorem identityMat_two : identityMat 2 = [[1, 0], [0, 1]] := rfl

theorem matInv_id2 : matInv [[(1 : ℚ), 0], [0, 1]] = some [[1, 0], [0, 1]] := by
  have h2 : List.range 2 = [0, 1] := rfl
  have h1 : List.range 1 = [0] := rfl
  unfold matInv
  norm_num [h2, h1, matDet, matDetFuel, matMinor, List.eraseIdx, List.getD]

theorem matInv_singular2 : matInv [[(1 : ℚ), 1], [1, 1]] = none := by
  have h2 : List.range 2 = [0, 1] := rfl
  unfold matInv
  norm_num [h2, matDet, matDetFuel, matMinor, List.eraseIdx, List.getD]

theorem init_matrix_shape (p : Params) (rf ni : Bool) (T : TLinear)
    (hT : t_linear_init p rf ni = Except.ok T) :
    (T.params.matrix.getD []).length = T.input_dim := by
  unfold t_linear_init resolveMatrix at hT
  cases hp : p.matrix with
  | some m =>
      simp only [hp, Option.getD_some] at hT
      cases hs : p.scale with
      | none =>
          simp only [hs] at hT
          cases hT
          rw [finishInit_params, finishInit_input_dim, hp, Option.getD_some]
      | some s =>
          simp only [hs] at hT
          cases hsd : scaleDiag m s with
          | error e => rw [hsd] at hT; cases hT
          | ok m2 =>
              rw [hsd] at hT
              cases hT
              rw [finishInit_params, finishInit_input_dim, Option.getD_some]
              exact scaleDiag_length m s m2 hsd
  | none =>
      simp only [hp, Option.getD_some] at hT
      cases hs : p.scale with
      | none =>
          simp only [hs] at hT
          cases hT
          rw [finishInit_params, finishInit_input_dim, Option.getD_some, identityMat_length]
      | some s =>
          simp only [hs] at hT
          cases hsd : scaleDiag (identityMat (inferDims p)) s with
          | error e => rw [hsd] at hT; cases hT
          | ok m2 =>
              rw [hsd] at hT
              cases hT
              rw [finishInit_params, finishInit_input_dim, Option.getD_some]
              rw [scaleDiag_length (identityMat (inferDims p)) s m2 hsd, identityMat_length]

/- ------------------------------------------------------------------ -/
/- Claim inputs                                                        -/
/- ------------------------------------------------------------------ -/

def C1params : Params := ⟨some [[1, 0], [0, 1]], none, none, some [0, 0], some [0, 0], none⟩

def C1batch : List (List ℚ) := [[1, 0], [0, 1]]

def C2params : Params := ⟨some [[1, 1], [1, 1]], none, none, none, none, none⟩

def C2T : TLinear := ⟨C2params, 2, 2, none, true, false⟩

def C3params : Params := ⟨none, some 90, none, none, none, some 2⟩

def C3T : TLinear :=
  ⟨⟨some [[1, 0], [0, 1]], some 90, none, none, none, some 2⟩, 2, 2,
    some [[1, 0], [0, 1]], false, false⟩

def C4params : Params := ⟨some [[1, 2, 3], [4, 5, 6]], none, none, none, none, none⟩

def C4T : TLinear := ⟨C4params, 2, 3, none, true, false⟩

def C6params : Params := ⟨some [[1, 0], [0, 1]], none, none, none, none, none⟩

def C6T : TLinear := ⟨C6params, 2, 2, some [[1, 0], [0, 1]], false, false⟩

def C8params : Params := ⟨some [[1, 0], [0, 1]], none, none, none, none, none⟩

def C8T : TLinear := ⟨C8params, 2, 2, some [[1, 0], [0, 1]], false, false⟩

def C9params : Params := ⟨none, none, some (ScaleV.arr2 [[2, 2], [2, 2]]), none, none, none⟩

def C10params : Params := ⟨none, none, none, none, none, none⟩

def C10T : TLinear :=
  ⟨⟨some [[1, 0], [0, 1]], none, none, none, none, none⟩, 2, 2,
    some [[1, 0], [0, 1]], false, false⟩

/- ------------------------------------------------------------------ -/
/- Claim theorems                                                      -/
/- ------------------------------------------------------------------ -/

/-- Claim C1: the round trip T.invert(T.apply(B, forward)) can never equal B,
because t_linear.apply has no return statement on its forward path: for every
transform, batch and direction it either raises or returns None, never a batch;
in particular the invertible identity transform applied forward to a compatible
batch returns None. -/
theorem C1_round_trip_impossible :
    (∀ (T : TLinear) (data : List (List ℚ)) (bw : Bool) (b : List (List ℚ)),
        t_linear_apply T data bw ≠ Except.ok (some b))
    ∧ (t_linear_init C1params false false).toOption.map
        (fun T => t_linear_apply T C1batch false) = some (Except.ok none) := by
  constructor
  · intro T data bw b h
    unfold t_linear_apply at h
    split at h
    · split at h
      · exact Except.noConfusion h
      · split at h
        · exact Except.noConfusion h
        · split at h
          · exact Option.noConfusion (Except.ok.inj h)
          · exact Except.noConfusion h
    · split at h
      · exact Option.noConfusion (Except.ok.inj h)
      · exact Option.noConfusion (Except.ok.inj h)
  · simp [C1params, C1batch, t_linear_init, resolveMatrix, finishInit, matInv_id2,
      Except.toOption, t_linear_apply, shape1]

/-- Claim C2: the singular matrix [[1,1],[1,1]] does set the non-invertible
flag (so the invertibility query is false), but no backward application raises
a NonInvertibleTransform error: apply with backwards=1 silently returns None
(the invertible and non-invertible branches of apply are swapped and only
print), and Transforms.invert raises TypeError instead, because it passes the
keyword backward to a method whose parameter is named backwards. -/
theorem C2_noninvertible_error_never_raised :
    t_linear_init C2params false false = Except.ok C2T
    ∧ is_invertible C2T = false
    ∧ C2T.inv = none
    ∧ (∀ e, t_linear_apply C2T [[1], [1]] true ≠ Except.error e)
    ∧ t_linear_apply C2T [[1], [1]] true = Except.ok none
    ∧ t_linear_invert C2T [[1], [1]] =
        Except.error (PyError.typeError "apply got an unexpected keyword argument backward") :=
  ⟨by simp [C2params, C2T, t_linear_init, resolveMatrix, finishInit, matInv_singular2, shape1],
    rfl, rfl, fun _ h => Except.noConfusion h, rfl, rfl⟩

/-- Claim C3: with rotation = 90 and dims = 2 the rotation matrix is computed
but never composed into the working matrix (the composition statements are
comments), so the resolved matrix is the identity, not [[0,-1],[1,0]]; and
applying the transform forward to the point [1,0] raises TypeError (pre is
None and line 205 adds it to the data), rather than yielding [0,1]. -/
theorem C3_rotation_discarded :
    t_linear_init C3params false false = Except.ok C3T
    ∧ C3T.params.matrix = some [[1, 0], [0, 1]]
    ∧ (some [[(1 : ℚ), 0], [0, 1]] : Option Mat) ≠ some [[0, -1], [1, 0]]
    ∧ t_linear_apply C3T [[1], [0]] false =
        Except.error (PyError.typeError "unsupported operand type for + : float and NoneType") :=
  ⟨by simp [C3params, C3T, t_linear_init, resolveMatrix, inferDims, finishInit,
      identityMat_two, matInv_id2],
    rfl, by decide, rfl⟩

/-- Claim C4, counterexample: for the explicit 2 x 3 matrix [[1,2,3],[4,5,6]]
the constructor sets input_dim = 2 (the row count) and output_dim = 3 (the
column count), the opposite of the claimed (columns, rows) = (3, 2). -/
theorem C4_dims_counterexample :
    t_linear_init C4params false false = Except.ok C4T
    ∧ (C4T.input_dim, C4T.output_dim) = (2, 3)
    ∧ (shape1 [[(1 : ℚ), 2, 3], [4, 5, 6]], ([[(1 : ℚ), 2, 3], [4, 5, 6]] : Mat).length) = (3, 2)
    ∧ ((2 : Nat), (3 : Nat)) ≠ ((3 : Nat), (2 : Nat)) :=
  ⟨rfl, rfl, rfl, by decide⟩

/-- Claim C4 (amended): for every t_linear constructed with an explicit matrix,
the input dimensionality equals the matrix row count and the output
dimensionality equals the matrix column count (lines 126-127 read shape[0]
into input_dim and shape[1] into output_dim). -/
theorem C4_dims_from_matrix (p : Params) (m : Mat) (rf ni : Bool) (T : TLinear)
    (hm : p.matrix = some m) (hT : t_linear_init p rf ni = Except.ok T) :
    T.input_dim = m.length ∧ T.output_dim = shape1 m := by
  unfold t_linear_init resolveMatrix at hT
  simp only [hm, Option.getD_some] at hT
  cases hs : p.scale with
  | none =>
      simp only [hs] at hT
      cases hT
      rw [finishInit_input_dim, finishInit_output_dim]
      exact ⟨rfl, rfl⟩
  | some s =>
      simp only [hs] at hT
      cases hsd : scaleDiag m s with
      | error e => rw [hsd] at hT; cases hT
      | ok m2 =>
          rw [hsd] at hT
          cases hT
          rw [finishInit_input_dim, finishInit_output_dim]
          exact ⟨rfl, rfl⟩

/-- Witness for the amended claim C4 at the concrete 2 x 3 matrix. -/
theorem C4_dims_from_matrix_witness :
    C4T.input_dim = ([[(1 : ℚ), 2, 3], [4, 5, 6]] : Mat).length
    ∧ C4T.output_dim = shape1 ([[(1 : ℚ), 2, 3], [4, 5, 6]] : Mat) :=
  C4_dims_from_matrix C4params [[1, 2, 3], [4, 5, 6]] false false C4T rfl rfl

/-- Claim C5: t_identity.apply is a bare pass, so in either direction it
returns None for every batch: it neither returns the batch itself nor a copy
of it. -/
theorem C5_identity_apply_returns_none :
    (∀ (data : List (List ℚ)) (bw : Bool), t_identity_apply data bw = none)
    ∧ t_identity_apply ([[1, 2]] : List (List ℚ)) false ≠ some [[1, 2]] :=
  ⟨fun _ _ => rfl, fun h => Option.noConfusion h⟩

/-- Claim C6: invert(data) is not equivalent to apply(data, backward) on
t_linear: invert raises TypeError (keyword backward versus parameter
backwards), while a direct backward apply returns None. -/
theorem C6_invert_differs_from_backward_apply :
    t_linear_init C6params false false = Except.ok C6T
    ∧ t_linear_invert C6T [[1], [1]] =
        Except.error (PyError.typeError "apply got an unexpected keyword argument backward")
    ∧ t_linear_apply C6T [[1], [1]] true = Except.ok none
    ∧ t_linear_invert C6T [[1], [1]] ≠ t_linear_apply C6T [[1], [1]] true :=
  ⟨by simp [C6params, C6T, t_linear_init, resolveMatrix, finishInit, matInv_id2, shape1],
    rfl, rfl, fun h => Except.noConfusion h⟩

/-- Claim C7: with only pre supplied, of length 3, the resolved input and
output dimensionality are both 3 (line 139), not the default 2. -/
theorem C7_pre_dimension_inference (pr : List ℚ) (rf ni : Bool) (h : pr.length = 3) :
    (t_linear_init ⟨none, none, none, some pr, none, none⟩ rf ni).toOption.map
      (fun T => (T.input_dim, T.output_dim)) = some (3, 3) := by
  obtain ⟨a, b, c, rfl⟩ := List.length_eq_three.mp h
  simp [t_linear_init, resolveMatrix, inferDims, Except.toOption,
    finishInit_input_dim, finishInit_output_dim]

/-- Witness for claim C7 at pre = [1, 2, 3]. -/
theorem C7_pre_dimension_inference_witness :
    (t_linear_init ⟨none, none, none, some [1, 2, 3], none, none⟩ false false).toOption.map
      (fun T => (T.input_dim, T.output_dim)) = some (3, 3) :=
  C7_pre_dimension_inference [1, 2, 3] false false rfl

/-- Claim C8: for every constructed t_linear, when the effective direction is
forward (backwards equals the reverse flag is false twice or true twice, i.e.
backwards = reverse_flag) and the batch has fewer point-dimension rows than the
required input dimensionality, apply raises the dimension-check ValueError of
line 203, the DimensionMismatch of the specification taxonomy. -/
theorem C8_dimension_mismatch (p : Params) (rf ni : Bool) (T : TLinear)
    (data : List (List ℚ)) (bw : Bool)
    (hT : t_linear_init p rf ni = Except.ok T)
    (hdir : bw = T.reverse_flag)
    (hlt : data.length < T.input_dim) :
    t_linear_apply T data bw = Except.error (DimensionMismatch data.length) := by
  have hlen := init_matrix_shape p rf ni T hT
  subst hdir
  have hcond : ((!T.reverse_flag && !T.reverse_flag) || (T.reverse_flag && T.reverse_flag)) = true := by
    cases T.reverse_flag <;> rfl
  unfold t_linear_apply
  rw [hcond, if_pos rfl, hlen, if_pos hlt]

/-- Witness for claim C8: the 2-D identity transform applied forward to a batch
with a single point-dimension row. -/
theorem C8_dimension_mismatch_witness :
    t_linear_apply C8T [[1]] false = Except.error (DimensionMismatch 1) :=
  C8_dimension_mismatch C8params false false C8T [[1]] false
    (by simp [C8params, C8T, t_linear_init, resolveMatrix, finishInit, matInv_id2, shape1])
    rfl (by decide)

/-- Claim C9: a rank-2 scale does make construction fail, but not through the
intended InvalidParameter guard: the branch condition on line 178 is truthy for
every non-None scale, so the rank check on lines 183-185 is unreachable and the
failure is the numpy ValueError raised when line 181 stores an array product
into the scalar cell matrix[0][0]. -/
theorem C9_rank2_scale_wrong_error :
    t_linear_init C9params false false =
      Except.error (PyError.valueError "setting an array element with a sequence")
    ∧ PyError.valueError "setting an array element with a sequence" ≠
        PyError.valueError "Scale only accepts scalars and 1D arrays" :=
  ⟨rfl, by decide⟩

/-- Claim C10: when no matrix is supplied, the constructor writes the resolved
matrix into the parameters dict (lines 148-149), which in Python is the very
dict object the caller passed in; the dict observed after construction differs
from the one supplied. -/
theorem C10_parameters_dict_mutated (p : Params) (rf ni : Bool) (T : TLinear)
    (hm : p.matrix = none) (hT : t_linear_init p rf ni = Except.ok T) :
    (T.params.matrix).isSome = true ∧ T.params ≠ p := by
  unfold t_linear_init resolveMatrix at hT
  simp only [hm, Option.getD_some] at hT
  cases hs : p.scale with
  | none =>
      simp only [hs] at hT
      cases hT
      rw [finishInit_params]
      constructor
      · rfl
      · intro he
        have hmx := congrArg Params.matrix he
        simp only [hm] at hmx
        exact Option.noConfusion hmx
  | some s =>
      simp only [hs] at hT
      cases hsd : scaleDiag (identityMat (inferDims p)) s with
      | error e => rw [hsd] at hT; cases hT
      | ok m2 =>
          rw [hsd] at hT
          cases hT
          rw [finishInit_params]
          constructor
          · rfl
          · intro he
            have hmx := congrArg Params.matrix he
            simp only [hm] at hmx
            exact Option.noConfusion hmx

/-- Witness for claim C10: the all-defaults construction ends with the dict
holding the 2-D identity matrix. -/
theorem C10_parameters_dict_mutated_witness :
    (C10T.params.matrix).isSome = true ∧ C10T.params ≠ C10params :=
  C10_parameters_dict_mutated C10params false false C10T rfl
    (by simp [C10params, C10T, t_linear_init, resolveMatrix, inferDims, finishInit,
      identityMat_two, matInv_id2])
